import Mathlib

/-!
Shallow embedding of the swapchain capability-negotiation code of
`framework/core/swapchain.cpp` and the memory-type lookup of
`framework/core/physical_device.cpp` (Vulkan-Samples).

Machine integers (`uint32_t`, Vulkan flag masks and enum values) are modelled
as `Nat`; the flag values are the concrete Vulkan enum constants.  The Vulkan
driver calls (`vkGetPhysicalDeviceSurfaceCapabilitiesKHR`,
`vkGetPhysicalDeviceSurfaceFormatsKHR`, ...) are external collaborators: their
results are modelled as an explicit capability snapshot passed to the
negotiation.  A C++ `throw` is modelled as `Option`/`Except` failure.
-/

namespace Vkb

/-- `VK_PRESENT_MODE_IMMEDIATE_KHR` -/
def VK_PRESENT_MODE_IMMEDIATE_KHR : Nat := 0

/-- `VK_PRESENT_MODE_MAILBOX_KHR` -/
def VK_PRESENT_MODE_MAILBOX_KHR : Nat := 1

/-- `VK_PRESENT_MODE_FIFO_KHR` -/
def VK_PRESENT_MODE_FIFO_KHR : Nat := 2

/-- `VK_COMPOSITE_ALPHA_OPAQUE_BIT_KHR` -/
def VK_COMPOSITE_ALPHA_OPAQUE_BIT_KHR : Nat := 1

/-- `VK_COMPOSITE_ALPHA_PRE_MULTIPLIED_BIT_KHR` -/
def VK_COMPOSITE_ALPHA_PRE_MULTIPLIED_BIT_KHR : Nat := 2

/-- `VK_COMPOSITE_ALPHA_POST_MULTIPLIED_BIT_KHR` -/
def VK_COMPOSITE_ALPHA_POST_MULTIPLIED_BIT_KHR : Nat := 4

/-- `VK_COMPOSITE_ALPHA_INHERIT_BIT_KHR` -/
def VK_COMPOSITE_ALPHA_INHERIT_BIT_KHR : Nat := 8

/-- `VK_IMAGE_USAGE_TRANSFER_DST_BIT` -/
def VK_IMAGE_USAGE_TRANSFER_DST_BIT : Nat := 2

/-- `VK_IMAGE_USAGE_SAMPLED_BIT` -/
def VK_IMAGE_USAGE_SAMPLED_BIT : Nat := 4

/-- `VK_IMAGE_USAGE_STORAGE_BIT` -/
def VK_IMAGE_USAGE_STORAGE_BIT : Nat := 8

/-- `VK_IMAGE_USAGE_COLOR_ATTACHMENT_BIT` -/
def VK_IMAGE_USAGE_COLOR_ATTACHMENT_BIT : Nat := 16

/-- `VK_FORMAT_FEATURE_STORAGE_IMAGE_BIT` -/
def VK_FORMAT_FEATURE_STORAGE_IMAGE_BIT : Nat := 2

/-- `VK_IMAGE_COMPRESSION_DEFAULT_EXT` -/
def VK_IMAGE_COMPRESSION_DEFAULT_EXT : Nat := 0

/-- `VK_IMAGE_COMPRESSION_FIXED_RATE_NONE_EXT` -/
def VK_IMAGE_COMPRESSION_FIXED_RATE_NONE_EXT : Nat := 0

/-- `VkExtent2D`: width and height as `uint32_t`. -/
structure Extent2D where
  width : Nat
  height : Nat
deriving DecidableEq, Repr

/-- `VkSurfaceFormatKHR`: a pixel format together with a color space
(both enums, modelled as `Nat`). -/
structure SurfaceFormat where
  format : Nat
  colorSpace : Nat
deriving DecidableEq, Repr

/-- `choose_image_count` (swapchain.cpp lines 28-41): clamp the requested
image count into `[min_image_count, max_image_count]`, where a
`max_image_count` of 0 means "no upper bound". -/
def choose_image_count (request_image_count min_image_count max_image_count : Nat) : Nat :=
  let r := if max_image_count ≠ 0 then min request_image_count max_image_count
           else request_image_count
  max r min_image_count

/-- `choose_image_array_layers` (swapchain.cpp lines 43-51): clamp the
requested layer count into `[1, max_image_array_layers]`. -/
def choose_image_array_layers (request_image_array_layers max_image_array_layers : Nat) : Nat :=
  max (min request_image_array_layers max_image_array_layers) 1

/-- `choose_extent` (swapchain.cpp lines 53-77): sentinel current width
`0xFFFFFFFF` returns the request verbatim; a zero requested dimension falls
back to the current extent; otherwise both dimensions are independently
clamped into `[min_image_extent, max_image_extent]` (first `max` with the
lower bound, then `min` with the upper bound, exactly as in the source). -/
def choose_extent (request_extent min_image_extent max_image_extent current_extent : Extent2D) :
    Extent2D :=
  if current_extent.width = 0xFFFFFFFF then
    request_extent
  else if request_extent.width < 1 ∨ request_extent.height < 1 then
    current_extent
  else
    { width := min (max request_extent.width min_image_extent.width) max_image_extent.width,
      height := min (max request_extent.height min_image_extent.height) max_image_extent.height }

/-- `choose_present_mode` (swapchain.cpp lines 79-108): the requested mode if
available, else the first priority-list entry found among the available
modes, else `VK_PRESENT_MODE_FIFO_KHR`. -/
def choose_present_mode (request_present_mode : Nat)
    (available_present_modes present_mode_priority_list : List Nat) : Nat :=
  if request_present_mode ∈ available_present_modes then
    request_present_mode
  else
    match present_mode_priority_list.find? (fun m => decide (m ∈ available_present_modes)) with
    | some m => m
    | none => VK_PRESENT_MODE_FIFO_KHR

/-- The field-wise comparison used by the lambdas inside
`choose_surface_format` (swapchain.cpp lines 118-126 and 135-143). -/
def surface_format_matches (target surface : SurfaceFormat) : Bool :=
  surface.format == target.format && surface.colorSpace == target.colorSpace

/-- `choose_surface_format` (swapchain.cpp lines 110-161): the first available
entry matching the request on both fields; else, walking the priority list in
order, the first available entry matching a priority entry; else the first
available entry.  Dereferencing `begin()` of an empty list is undefined in
the source; it is modelled by `head?` returning `none`. -/
def choose_surface_format (requested_surface_format : SurfaceFormat)
    (available_surface_formats surface_format_priority_list : List SurfaceFormat) :
    Option SurfaceFormat :=
  match available_surface_formats.find? (surface_format_matches requested_surface_format) with
  | some s => some s
  | none =>
    match surface_format_priority_list.findSome?
        (fun p => available_surface_formats.find? (surface_format_matches p)) with
    | some s => some s
    | none => available_surface_formats.head?

/-- `choose_transform` (swapchain.cpp lines 163-176): the requested transform
when its bit is in the supported mask, else the current transform. -/
def choose_transform (request_transform supported_transform current_transform : Nat) : Nat :=
  if request_transform &&& supported_transform ≠ 0 then request_transform
  else current_transform

/-- The fixed fallback order of `choose_composite_alpha`
(swapchain.cpp lines 185-189). -/
def composite_alpha_flags : List Nat :=
  [VK_COMPOSITE_ALPHA_OPAQUE_BIT_KHR,
   VK_COMPOSITE_ALPHA_PRE_MULTIPLIED_BIT_KHR,
   VK_COMPOSITE_ALPHA_POST_MULTIPLIED_BIT_KHR,
   VK_COMPOSITE_ALPHA_INHERIT_BIT_KHR]

/-- `choose_composite_alpha` (swapchain.cpp lines 178-201): the requested bit
when supported, else the first supported entry of the fixed fallback order;
`none` models the `throw std::runtime_error`. -/
def choose_composite_alpha (request_composite_alpha supported_composite_alpha : Nat) :
    Option Nat :=
  if request_composite_alpha &&& supported_composite_alpha ≠ 0 then
    some request_composite_alpha
  else
    composite_alpha_flags.find? (fun f => f &&& supported_composite_alpha != 0)

/-- `validate_format_feature` (swapchain.cpp lines 203-212): storage usage
additionally requires the storage-image format feature; every other usage
passes. -/
def validate_format_feature (image_usage supported_features : Nat) : Bool :=
  if image_usage = VK_IMAGE_USAGE_STORAGE_BIT then
    VK_FORMAT_FEATURE_STORAGE_IMAGE_BIT &&& supported_features != 0
  else
    true

/-- The fixed fallback order of `choose_image_usage`
(swapchain.cpp lines 232-236). -/
def image_usage_fallback_flags : List Nat :=
  [VK_IMAGE_USAGE_COLOR_ATTACHMENT_BIT,
   VK_IMAGE_USAGE_STORAGE_BIT,
   VK_IMAGE_USAGE_SAMPLED_BIT,
   VK_IMAGE_USAGE_TRANSFER_DST_BIT]

/-- The qualification test applied to each usage flag by `choose_image_usage`
(swapchain.cpp lines 219 and 240): structurally supported and
format-feature valid. -/
def usage_qual (supported_image_usage supported_features flag : Nat) : Bool :=
  (flag &&& supported_image_usage != 0) && validate_format_feature flag supported_features

/-- `choose_image_usage` (swapchain.cpp lines 214-264): keep the requested
flags that are both structurally supported and format-feature valid; if none
survives, take the first qualifying entry of the fixed fallback order; `none`
models the `throw std::runtime_error`.  The `std::set` of requested flags is
modelled as a list (its iteration order does not influence the resulting
set). -/
def choose_image_usage (requested_image_usage_flags : List Nat)
    (supported_image_usage supported_features : Nat) : Option (List Nat) :=
  let validated := requested_image_usage_flags.filter
    (usage_qual supported_image_usage supported_features)
  let validated₂ :=
    if validated.isEmpty then
      match image_usage_fallback_flags.find?
          (usage_qual supported_image_usage supported_features) with
      | some f => [f]
      | none => []
    else validated
  if validated₂.isEmpty then none else some validated₂

/-- `composite_image_flags` (swapchain.cpp lines 266-274): bitwise OR of the
validated usage-flag set. -/
def composite_image_flags (image_usage_flags : List Nat) : Nat :=
  image_usage_flags.foldl (fun acc f => acc ||| f) 0

/-- `VkSurfaceCapabilitiesKHR`, restricted to the fields the constructor
reads (swapchain.cpp lines 388-428). -/
structure SurfaceCapabilities where
  minImageCount : Nat
  maxImageCount : Nat
  minImageExtent : Extent2D
  maxImageExtent : Extent2D
  currentExtent : Extent2D
  maxImageArrayLayers : Nat
  supportedTransforms : Nat
  currentTransform : Nat
  supportedCompositeAlpha : Nat
  supportedUsageFlags : Nat
deriving DecidableEq, Repr

/-- The capability snapshot the master constructor queries from the driver
(swapchain.cpp lines 388-413 and 422-423): surface capabilities, the surface
format list, the present-mode list, and the optimal-tiling format features of
each pixel format (`vkGetPhysicalDeviceFormatProperties`). -/
structure Snapshot where
  caps : SurfaceCapabilities
  surface_formats : List SurfaceFormat
  present_modes : List Nat
  format_features : Nat → Nat

/-- `vkb::SwapchainProperties`: the resolved per-axis values stored by the
master constructor (swapchain.cpp lines 416-429; the stored
`old_swapchain` handle is an external resource handle and is omitted). -/
structure Properties where
  image_count : Nat
  extent : Extent2D
  array_layers : Nat
  surface_format : SurfaceFormat
  image_usage : Nat
  pre_transform : Nat
  composite_alpha : Nat
  present_mode : Nat
deriving DecidableEq, Repr

/-- The persistent state of a constructed `vkb::Swapchain` that later
recreation constructors read (swapchain.cpp lines 278-351): the resolved
properties, the validated usage-flag set, the two priority lists, and the
stored compression preference.  `compression_warning` records whether the
warning of line 466 was emitted. -/
structure SwapchainState where
  properties : Properties
  image_usage_flags : List Nat
  present_mode_priority_list : List Nat
  surface_format_priority_list : List SurfaceFormat
  requested_compression : Nat
  requested_compression_fixed_rate : Nat
  compression_warning : Bool
deriving DecidableEq, Repr

/-- The request passed to `choose_surface_format` at swapchain.cpp line 419:
`properties.surface_format` of the freshly value-initialized `properties`
member, i.e. format 0 (`VK_FORMAT_UNDEFINED`) and color space 0
(`VK_COLOR_SPACE_SRGB_NONLINEAR_KHR`). -/
def default_surface_format_request : SurfaceFormat := { format := 0, colorSpace := 0 }

/-- The negotiation pass of the master constructor
(swapchain.cpp lines 368-471): resolves every axis from the capability
snapshot and stores the (possibly downgraded) compression preference.
`none` models a thrown `std::runtime_error` (no compatible image usage or
composite alpha; an empty surface-format list, undefined behaviour in the
source, is also mapped to `none`).  The driver-level
`vkCreateSwapchainKHR`/image-retrieval steps (lines 473-511) are external
collaborator calls and are outside the model. -/
def negotiate (snap : Snapshot) (present_mode : Nat)
    (present_mode_priority_list : List Nat)
    (surface_format_priority_list : List SurfaceFormat)
    (extent : Extent2D) (image_count : Nat) (transform : Nat)
    (image_usage_flags : List Nat)
    (requested_compression requested_compression_fixed_rate : Nat)
    (compression_control_enabled : Bool) : Option SwapchainState :=
  (choose_surface_format default_surface_format_request snap.surface_formats
      surface_format_priority_list).bind fun sf =>
  (choose_image_usage image_usage_flags snap.caps.supportedUsageFlags
      (snap.format_features sf.format)).bind fun flags =>
  (choose_composite_alpha VK_COMPOSITE_ALPHA_INHERIT_BIT_KHR
      snap.caps.supportedCompositeAlpha).bind fun ca =>
  some
    { properties :=
        { image_count :=
            choose_image_count image_count snap.caps.minImageCount snap.caps.maxImageCount,
          extent :=
            choose_extent extent snap.caps.minImageExtent snap.caps.maxImageExtent
              snap.caps.currentExtent,
          array_layers := choose_image_array_layers 1 snap.caps.maxImageArrayLayers,
          surface_format := sf,
          image_usage := composite_image_flags flags,
          pre_transform :=
            choose_transform transform snap.caps.supportedTransforms
              snap.caps.currentTransform,
          composite_alpha := ca,
          present_mode :=
            choose_present_mode present_mode snap.present_modes
              present_mode_priority_list },
      image_usage_flags := flags,
      present_mode_priority_list := present_mode_priority_list,
      surface_format_priority_list := surface_format_priority_list,
      requested_compression :=
        if compression_control_enabled then requested_compression
        else if requested_compression ≠ VK_IMAGE_COMPRESSION_DEFAULT_EXT then
          VK_IMAGE_COMPRESSION_DEFAULT_EXT
        else requested_compression,
      requested_compression_fixed_rate :=
        if compression_control_enabled then requested_compression_fixed_rate
        else if requested_compression ≠ VK_IMAGE_COMPRESSION_DEFAULT_EXT then
          VK_IMAGE_COMPRESSION_FIXED_RATE_NONE_EXT
        else requested_compression_fixed_rate,
      compression_warning :=
        if compression_control_enabled then false
        else if requested_compression ≠ VK_IMAGE_COMPRESSION_DEFAULT_EXT then true
        else false }

/-- Recreation constructor `Swapchain(old, extent)`
(swapchain.cpp lines 278-291). -/
def recreate_with_extent (old : SwapchainState) (snap : Snapshot)
    (compression_control_enabled : Bool) (extent : Extent2D) : Option SwapchainState :=
  negotiate snap old.properties.present_mode old.present_mode_priority_list
    old.surface_format_priority_list extent old.properties.image_count
    old.properties.pre_transform old.image_usage_flags
    old.requested_compression old.requested_compression_fixed_rate
    compression_control_enabled

/-- Recreation constructor `Swapchain(old, image_count)`
(swapchain.cpp lines 293-306). -/
def recreate_with_image_count (old : SwapchainState) (snap : Snapshot)
    (compression_control_enabled : Bool) (image_count : Nat) : Option SwapchainState :=
  negotiate snap old.properties.present_mode old.present_mode_priority_list
    old.surface_format_priority_list old.properties.extent image_count
    old.properties.pre_transform old.image_usage_flags
    old.requested_compression old.requested_compression_fixed_rate
    compression_control_enabled

/-- Recreation constructor `Swapchain(old, image_usage_flags)`
(swapchain.cpp lines 308-321). -/
def recreate_with_image_usage (old : SwapchainState) (snap : Snapshot)
    (compression_control_enabled : Bool) (image_usage_flags : List Nat) :
    Option SwapchainState :=
  negotiate snap old.properties.present_mode old.present_mode_priority_list
    old.surface_format_priority_list old.properties.extent old.properties.image_count
    old.properties.pre_transform image_usage_flags
    old.requested_compression old.requested_compression_fixed_rate
    compression_control_enabled

/-- Recreation constructor `Swapchain(old, extent, transform)`
(swapchain.cpp lines 323-336). -/
def recreate_with_extent_transform (old : SwapchainState) (snap : Snapshot)
    (compression_control_enabled : Bool) (extent : Extent2D) (transform : Nat) :
    Option SwapchainState :=
  negotiate snap old.properties.present_mode old.present_mode_priority_list
    old.surface_format_priority_list extent old.properties.image_count
    transform old.image_usage_flags
    old.requested_compression old.requested_compression_fixed_rate
    compression_control_enabled

/-- Recreation constructor `Swapchain(old, requested_compression,
requested_compression_fixed_rate)` (swapchain.cpp lines 338-351). -/
def recreate_with_compression (old : SwapchainState) (snap : Snapshot)
    (compression_control_enabled : Bool)
    (requested_compression requested_compression_fixed_rate : Nat) :
    Option SwapchainState :=
  negotiate snap old.properties.present_mode old.present_mode_priority_list
    old.surface_format_priority_list old.properties.extent old.properties.image_count
    old.properties.pre_transform old.image_usage_flags
    requested_compression requested_compression_fixed_rate
    compression_control_enabled

/-- Modelled from the spec: the class declaration (the header is not under
src/) supplies default arguments for the master constructor's two
compression parameters — the "default" compression preference of the
options-with-defaults pattern (spec §9), i.e.
`VK_IMAGE_COMPRESSION_DEFAULT_EXT`. -/
def swapchain_default_compression : Nat := VK_IMAGE_COMPRESSION_DEFAULT_EXT

/-- Modelled from the spec: the header's default argument for the master
constructor's fixed-rate parameter, `VK_IMAGE_COMPRESSION_FIXED_RATE_NONE_EXT`. -/
def swapchain_default_compression_fixed_rate : Nat := VK_IMAGE_COMPRESSION_FIXED_RATE_NONE_EXT

/-- First-time-creation constructor (swapchain.cpp lines 353-366).  Its
delegation at line 364 passes only the first ten parameters to the master
constructor, so the caller-supplied `requested_compression` and
`requested_compression_fixed_rate` arguments are dropped and the master
constructor's declared defaults are used instead. -/
def first_time_create (snap : Snapshot) (present_mode : Nat)
    (present_mode_priority_list : List Nat)
    (surface_format_priority_list : List SurfaceFormat)
    (extent : Extent2D) (image_count : Nat) (transform : Nat)
    (image_usage_flags : List Nat)
    (requested_compression requested_compression_fixed_rate : Nat)
    (compression_control_enabled : Bool) : Option SwapchainState :=
  negotiate snap present_mode present_mode_priority_list surface_format_priority_list
    extent image_count transform image_usage_flags
    swapchain_default_compression swapchain_default_compression_fixed_rate
    compression_control_enabled

/-- The loop of `PhysicalDevice::get_memory_type`
(physical_device.cpp lines 137-151): walk the memory types in index order,
shifting the mask right each iteration, and return the first index whose
mask bit is set and whose property flags contain all requested ones. -/
def memory_type_find (memory_types : List Nat) (bits properties : Nat) : Option Nat :=
  match memory_types with
  | [] => none
  | t :: rest =>
    if (bits &&& 1 == 1) && (t &&& properties == properties) then
      some 0
    else
      (memory_type_find rest (bits >>> 1) properties).map (· + 1)

/-- `PhysicalDevice::get_memory_type` (physical_device.cpp lines 135-162):
the memory types are the `propertyFlags` entries of
`memory_properties.memoryTypes[0 .. memoryTypeCount)`; `has_out_flag` models
whether the caller passed a non-null `memory_type_found` pointer, and the
returned `Option Bool` is the value written through it.  `Except.error`
models the `throw std::runtime_error`; the sentinel `~0` on `uint32_t` is
`4294967295`. -/
def get_memory_type (memory_types : List Nat) (bits properties : Nat)
    (has_out_flag : Bool) : Except Unit (Nat × Option Bool) :=
  match memory_type_find memory_types bits properties with
  | some i => Except.ok (i, if has_out_flag then some true else none)
  | none =>
    if has_out_flag then Except.ok (4294967295, some false)
    else Except.error ()

/-- The two prerequisites `Swapchain::query_supported_fixed_rate_compression`
can find missing (swapchain.cpp lines 635 and 640). -/
inductive CompressionQueryWarning where
  | missing_device_compression_control_swapchain
  | missing_instance_surface_capabilities2
deriving DecidableEq, Repr

/-- `Swapchain::query_supported_fixed_rate_compression`
(swapchain.cpp lines 599-644): only when both the device-level
`VK_EXT_image_compression_control_swapchain` and the instance-level
`VK_KHR_get_surface_capabilities2` extensions are enabled does it run the
two-call `vkGetPhysicalDeviceSurfaceFormats2KHR` query — modelled by the
externally supplied `queried` list of (surface format, compression
properties) pairs, one per reported surface format — and return that list;
otherwise it returns the empty list together with a warning naming the
missing prerequisite, never an error. -/
def query_supported_fixed_rate_compression (device_compression_control_enabled : Bool)
    (instance_surface_capabilities2_enabled : Bool)
    (queried : List (SurfaceFormat × Nat)) :
    List (SurfaceFormat × Nat) × Option CompressionQueryWarning :=
  if device_compression_control_enabled then
    if instance_surface_capabilities2_enabled then
      (queried, none)
    else
      ([], some CompressionQueryWarning.missing_instance_surface_capabilities2)
  else
    ([], some CompressionQueryWarning.missing_device_compression_control_swapchain)

/-! ### Helper lemmas -/

/-- `find?` returns the head of the first segment element satisfying the
predicate when everything before it fails the predicate. -/
theorem find?_append_first {α : Type} (p : α → Bool) (l₁ : List α) (a : α) (l₂ : List α)
    (h₁ : ∀ x ∈ l₁, p x = false) (ha : p a = true) :
    (l₁ ++ a :: l₂).find? p = some a := by
  induction l₁ with
  | nil =>
    rw [List.nil_append]
    exact List.find?_cons_of_pos _ ha
  | cons x xs ih =>
    rw [List.cons_append, List.find?_cons_of_neg]
    · exact ih fun y hy => h₁ y (List.mem_cons_of_mem x hy)
    · simp [h₁ x (List.mem_cons_self x xs)]

/-- `findSome?` returns the first segment element's result when everything
before it yields `none`. -/
theorem findSome?_append_first {α β : Type} (f : α → Option β) (l₁ : List α) (a : α)
    (l₂ : List α) (b : β) (h₁ : ∀ x ∈ l₁, f x = none) (ha : f a = some b) :
    (l₁ ++ a :: l₂).findSome? f = some b := by
  induction l₁ with
  | nil => simp [List.findSome?_cons, ha]
  | cons x xs ih =>
    rw [List.cons_append]
    simp only [List.findSome?_cons, h₁ x (List.mem_cons_self x xs)]
    exact ih fun y hy => h₁ y (List.mem_cons_of_mem x hy)

/-- The field-wise match of `choose_surface_format` is plain equality of the
two-field structure. -/
theorem surface_format_matches_iff (p s : SurfaceFormat) :
    surface_format_matches p s = true ↔ s = p := by
  cases p
  cases s
  simp [surface_format_matches, and_comm]

/-- `find?` with the field-wise match finds the requested format itself
whenever it is present. -/
theorem find?_matches_of_mem {req : SurfaceFormat} {avail : List SurfaceFormat}
    (h : req ∈ avail) : avail.find? (surface_format_matches req) = some req := by
  induction avail with
  | nil => cases h
  | cons x xs ih =>
    by_cases hx : x = req
    · subst hx
      exact List.find?_cons_of_pos _ ((surface_format_matches_iff x x).mpr rfl)
    · rw [List.find?_cons_of_neg]
      · exact ih ((List.mem_cons.mp h).resolve_left fun he => hx he.symm)
      · simp [surface_format_matches_iff, hx]

/-- `find?` with the field-wise match fails exactly on lists not containing
the requested format. -/
theorem find?_matches_of_not_mem {req : SurfaceFormat} {avail : List SurfaceFormat}
    (h : req ∉ avail) : avail.find? (surface_format_matches req) = none :=
  List.find?_eq_none.mpr fun x hx hmatch =>
    h ((surface_format_matches_iff req x).mp hmatch ▸ hx)

/-- A power of two that meets a mask in bitwise AND is wholly contained in
the mask. -/
theorem two_pow_and_eq_self {k s : Nat} (h : 2 ^ k &&& s ≠ 0) : 2 ^ k &&& s = 2 ^ k := by
  have hs : s.testBit k = true := by
    by_contra hbit
    apply h
    apply Nat.eq_of_testBit_eq
    intro j
    rw [Nat.testBit_land, Nat.zero_testBit]
    rcases eq_or_ne k j with rfl | hne
    · simp [Bool.eq_false_iff.mpr hbit]
    · simp [Nat.testBit_two_pow_of_ne hne]
  apply Nat.eq_of_testBit_eq
  intro j
  rw [Nat.testBit_land]
  rcases eq_or_ne k j with rfl | hne
  · simp [hs]
  · simp [Nat.testBit_two_pow_of_ne hne]

/-- The Bool-level usage qualification of `choose_image_usage` unfolded to a
proposition. -/
theorem usage_qual_iff (supported features f : Nat) :
    usage_qual supported features f = true ↔
      (f &&& supported ≠ 0 ∧ validate_format_feature f features = true) := by
  simp [usage_qual, bne_iff_ne]

/-- `choose_image_usage` when at least one requested flag qualifies: the
result is the filtered request list. -/
theorem choose_image_usage_eq_filter {requested : List Nat} {supported features : Nat}
    (h : requested.filter (usage_qual supported features) ≠ []) :
    choose_image_usage requested supported features =
      some (requested.filter (usage_qual supported features)) := by
  unfold choose_image_usage
  cases hfil : requested.filter (usage_qual supported features) with
  | nil => exact absurd hfil h
  | cons x xs => simp [hfil]

/-- `choose_image_usage` when no requested flag qualifies: the result is the
first qualifying fallback entry as a singleton, or failure. -/
theorem choose_image_usage_eq_fallback {requested : List Nat} {supported features : Nat}
    (h : requested.filter (usage_qual supported features) = []) :
    choose_image_usage requested supported features =
      (match image_usage_fallback_flags.find? (usage_qual supported features) with
       | some g => some [g]
       | none => none) := by
  unfold choose_image_usage
  rw [h]
  cases hfind : image_usage_fallback_flags.find? (usage_qual supported features) <;>
    simp [hfind]

/-- Every entry of the fixed usage fallback list is a single bit. -/
theorem image_usage_fallback_flags_two_pow {g : Nat} (h : g ∈ image_usage_fallback_flags) :
    ∃ k, g = 2 ^ k := by
  simp only [image_usage_fallback_flags, VK_IMAGE_USAGE_COLOR_ATTACHMENT_BIT,
    VK_IMAGE_USAGE_STORAGE_BIT, VK_IMAGE_USAGE_SAMPLED_BIT, VK_IMAGE_USAGE_TRANSFER_DST_BIT,
    List.mem_cons, List.not_mem_nil, or_false] at h
  rcases h with rfl | rfl | rfl | rfl
  · exact ⟨4, rfl⟩
  · exact ⟨3, rfl⟩
  · exact ⟨2, rfl⟩
  · exact ⟨1, rfl⟩

/-! ### Claims -/

/-- C1: `choose_present_mode` returns the requested mode when it occurs in
the available list; otherwise the first priority-list entry occurring in the
available list; otherwise `VK_PRESENT_MODE_FIFO_KHR`.  In particular with
available modes = [FIFO], request = MAILBOX, priority list =
[MAILBOX, FIFO], the result is FIFO. -/
theorem choose_present_mode_spec (req : Nat) (avail prio : List Nat) :
    (req ∈ avail → choose_present_mode req avail prio = req) ∧
    (req ∉ avail → (∀ p ∈ prio, p ∉ avail) →
      choose_present_mode req avail prio = VK_PRESENT_MODE_FIFO_KHR) ∧
    (req ∉ avail → ∀ l₁ p l₂, prio = l₁ ++ p :: l₂ → p ∈ avail →
      (∀ q ∈ l₁, q ∉ avail) → choose_present_mode req avail prio = p) ∧
    choose_present_mode VK_PRESENT_MODE_MAILBOX_KHR [VK_PRESENT_MODE_FIFO_KHR]
      [VK_PRESENT_MODE_MAILBOX_KHR, VK_PRESENT_MODE_FIFO_KHR] = VK_PRESENT_MODE_FIFO_KHR := by
  refine ⟨fun h => by simp [choose_present_mode, h], fun h hall => ?_, fun h l₁ p l₂ hp hpa hl₁ => ?_, by decide⟩
  · unfold choose_present_mode
    rw [if_neg h, List.find?_eq_none.mpr fun x hx => by simpa using hall x hx]
  · unfold choose_present_mode
    rw [if_neg h, hp,
      find?_append_first _ l₁ p l₂ (fun q hq => by simpa using hl₁ q hq) (by simpa using hpa)]

/-- Witness for C1 at concrete inputs: a supported request is honored, and an
unsupported request falls back to the first supported priority entry. -/
theorem choose_present_mode_spec_witness :
    choose_present_mode 2 [2] [] = 2 ∧ choose_present_mode 1 [0, 2] [1, 2] = 2 :=
  ⟨(choose_present_mode_spec 2 [2] []).1 (by decide),
   (choose_present_mode_spec 1 [0, 2] [1, 2]).2.2.1 (by decide) [1] 2 [] (by decide)
     (by decide) (by decide)⟩

/-- C2: `choose_surface_format` returns the requested pair when some
available entry matches it on both format and color space; otherwise the
first available entry matching a priority-list entry, walking the priority
list in order; otherwise the first entry of the available list (which exists
whenever the available list is non-empty). -/
theorem choose_surface_format_spec (req : SurfaceFormat) (avail prio : List SurfaceFormat) :
    (req ∈ avail → choose_surface_format req avail prio = some req) ∧
    (req ∉ avail → ∀ l₁ p l₂, prio = l₁ ++ p :: l₂ → p ∈ avail →
      (∀ q ∈ l₁, q ∉ avail) → choose_surface_format req avail prio = some p) ∧
    (req ∉ avail → (∀ p ∈ prio, p ∉ avail) →
      choose_surface_format req avail prio = avail.head?) ∧
    (avail ≠ [] → (choose_surface_format req avail prio).isSome = true) := by
  refine ⟨fun h => ?_, fun h l₁ p l₂ hp hpa hl₁ => ?_, fun h hall => ?_, fun hne => ?_⟩
  · unfold choose_surface_format
    rw [find?_matches_of_mem h]
  · unfold choose_surface_format
    rw [find?_matches_of_not_mem h, hp,
      findSome?_append_first _ l₁ p l₂ p (fun q hq => find?_matches_of_not_mem (hl₁ q hq))
        (find?_matches_of_mem hpa)]
  · unfold choose_surface_format
    rw [find?_matches_of_not_mem h,
      List.findSome?_eq_none.mpr fun q hq => find?_matches_of_not_mem (hall q hq)]
  · unfold choose_surface_format
    cases hfind : avail.find? (surface_format_matches req) with
    | some s => rfl
    | none =>
      cases hfs : prio.findSome? (fun p => avail.find? (surface_format_matches p)) with
      | some s => rfl
      | none =>
        obtain ⟨x, xs, rfl⟩ := List.exists_cons_of_ne_nil hne
        rfl

/-- Witness for C2 at concrete inputs: an exact match is honored, and with no
match anywhere the first available entry is chosen. -/
theorem choose_surface_format_spec_witness :
    choose_surface_format ⟨1, 2⟩ [⟨3, 4⟩, ⟨1, 2⟩] [] = some ⟨1, 2⟩ ∧
    choose_surface_format ⟨1, 2⟩ [⟨3, 4⟩] [⟨5, 6⟩] = some ⟨3, 4⟩ :=
  ⟨(choose_surface_format_spec ⟨1, 2⟩ [⟨3, 4⟩, ⟨1, 2⟩] []).1 (by decide),
   (choose_surface_format_spec ⟨1, 2⟩ [⟨3, 4⟩] [⟨5, 6⟩]).2.2.1 (by decide) (by decide)⟩

/-- C3: every flag returned by `choose_image_usage` is contained in the
supported-usage mask and passes the format-feature rule; when no requested
flag qualifies, the result is the first qualifying entry of the fixed
fallback list [color-attachment, storage, sampled, transfer-destination];
and it throws (returns `none`) iff no requested flag and no fallback entry
qualifies.  The requested flags are `VkImageUsageFlagBits` values, i.e.
single bits. -/
theorem choose_image_usage_spec (requested : List Nat) (supported features : Nat)
    (hbit : ∀ f ∈ requested, ∃ k, f = 2 ^ k) :
    (∀ res, choose_image_usage requested supported features = some res →
      ∀ f ∈ res, f &&& supported = f ∧ validate_format_feature f features = true) ∧
    ((∀ f ∈ requested, ¬(f &&& supported ≠ 0 ∧ validate_format_feature f features = true)) →
      ∀ l₁ g l₂, image_usage_fallback_flags = l₁ ++ g :: l₂ →
        g &&& supported ≠ 0 → validate_format_feature g features = true →
        (∀ x ∈ l₁, ¬(x &&& supported ≠ 0 ∧ validate_format_feature x features = true)) →
        choose_image_usage requested supported features = some [g]) ∧
    (choose_image_usage requested supported features = none ↔
      (∀ f ∈ requested, ¬(f &&& supported ≠ 0 ∧ validate_format_feature f features = true)) ∧
      (∀ f ∈ image_usage_fallback_flags,
        ¬(f &&& supported ≠ 0 ∧ validate_format_feature f features = true))) := by
  refine ⟨fun res hres f hf => ?_, fun hnone l₁ g l₂ hfb hg1 hg2 hl₁ => ?_, ?_⟩
  · by_cases hfil : requested.filter (usage_qual supported features) = []
    · rw [choose_image_usage_eq_fallback hfil] at hres
      cases hfind : image_usage_fallback_flags.find? (usage_qual supported features) with
      | none => rw [hfind] at hres; exact absurd hres (by simp)
      | some g =>
        rw [hfind] at hres
        injection hres with hres
        subst hres
        rw [List.mem_singleton] at hf
        subst hf
        obtain ⟨hne, hval⟩ := (usage_qual_iff supported features f).mp (List.find?_some hfind)
        obtain ⟨k, rfl⟩ := image_usage_fallback_flags_two_pow (List.mem_of_find?_eq_some hfind)
        exact ⟨two_pow_and_eq_self hne, hval⟩
    · rw [choose_image_usage_eq_filter hfil] at hres
      injection hres with hres
      subst hres
      obtain ⟨hfr, hq⟩ := List.mem_filter.mp hf
      obtain ⟨hne, hval⟩ := (usage_qual_iff supported features f).mp hq
      obtain ⟨k, rfl⟩ := hbit f hfr
      exact ⟨two_pow_and_eq_self hne, hval⟩
  · have hfil : requested.filter (usage_qual supported features) = [] :=
      List.filter_eq_nil.mpr fun a ha hq =>
        hnone a ha ((usage_qual_iff supported features a).mp hq)
    rw [choose_image_usage_eq_fallback hfil, hfb,
      find?_append_first _ l₁ g l₂
        (fun x hx => by
          cases hqx : usage_qual supported features x with
          | false => rfl
          | true => exact absurd ((usage_qual_iff supported features x).mp hqx) (hl₁ x hx))
        ((usage_qual_iff supported features g).mpr ⟨hg1, hg2⟩)]
  · constructor
    · intro hnone0
      by_cases hfil : requested.filter (usage_qual supported features) = []
      · rw [choose_image_usage_eq_fallback hfil] at hnone0
        cases hfind : image_usage_fallback_flags.find? (usage_qual supported features) with
        | some g => rw [hfind] at hnone0; exact absurd hnone0 (by simp)
        | none =>
          refine ⟨fun a ha hq => ?_, fun a ha hq => ?_⟩
          · exact (List.filter_eq_nil.mp hfil a ha)
              ((usage_qual_iff supported features a).mpr hq)
          · exact (List.find?_eq_none.mp hfind a ha)
              ((usage_qual_iff supported features a).mpr hq)
      · rw [choose_image_usage_eq_filter hfil] at hnone0
        exact absurd hnone0 (by simp)
    · rintro ⟨h1, h2⟩
      have hfil : requested.filter (usage_qual supported features) = [] :=
        List.filter_eq_nil.mpr fun a ha hq =>
          h1 a ha ((usage_qual_iff supported features a).mp hq)
      rw [choose_image_usage_eq_fallback hfil,
        List.find?_eq_none.mpr fun a ha hq =>
          h2 a ha ((usage_qual_iff supported features a).mp hq)]

/-- Witness for C3 at concrete inputs: requesting the color-attachment bit
with it supported yields a set whose single member is contained in the
supported mask and passes the format-feature rule. -/
theorem choose_image_usage_spec_witness :
    16 &&& 16 = 16 ∧ validate_format_feature 16 0 = true :=
  (choose_image_usage_spec [16] 16 0
      (fun f hf => by
        rw [List.mem_singleton] at hf
        subst hf
        exact ⟨4, rfl⟩)).1
    [16] (by decide) 16 (by decide)

/-- C4: `choose_composite_alpha` returns the requested bit when it is in the
supported mask; otherwise the first bit of the fixed order
[opaque, pre-multiplied, post-multiplied, inherit] present in the supported
mask; and it throws (returns `none`) iff none of those four bits is
supported.  The request is a `VkCompositeAlphaFlagBitsKHR` value, i.e. one of
the four bits.  In particular an unsupported request with only
post-multiplied supported resolves to post-multiplied. -/
theorem choose_composite_alpha_spec (req supp : Nat) (hreq : req ∈ composite_alpha_flags) :
    (req &&& supp ≠ 0 → choose_composite_alpha req supp = some req) ∧
    (req &&& supp = 0 → ∀ l₁ p l₂, composite_alpha_flags = l₁ ++ p :: l₂ →
      p &&& supp ≠ 0 → (∀ q ∈ l₁, q &&& supp = 0) →
      choose_composite_alpha req supp = some p) ∧
    (choose_composite_alpha req supp = none ↔ ∀ p ∈ composite_alpha_flags, p &&& supp = 0) ∧
    choose_composite_alpha VK_COMPOSITE_ALPHA_OPAQUE_BIT_KHR
        VK_COMPOSITE_ALPHA_POST_MULTIPLIED_BIT_KHR =
      some VK_COMPOSITE_ALPHA_POST_MULTIPLIED_BIT_KHR := by
  refine ⟨fun h => by simp [choose_composite_alpha, h],
    fun h l₁ p l₂ hfb hp hl₁ => ?_, ⟨fun hn => ?_, fun hall => ?_⟩, by decide⟩
  · unfold choose_composite_alpha
    rw [if_neg (fun hx => hx h), hfb,
      find?_append_first _ l₁ p l₂
        (fun q hq => by simpa using hl₁ q hq) (by simpa using hp)]
  · unfold choose_composite_alpha at hn
    by_cases h : req &&& supp ≠ 0
    · rw [if_pos h] at hn
      exact absurd hn (by simp)
    · rw [if_neg h] at hn
      intro p hp
      by_contra hpn
      exact (List.find?_eq_none.mp hn p hp) (by simpa using hpn)
  · have h0 : req &&& supp = 0 := hall req hreq
    unfold choose_composite_alpha
    rw [if_neg (fun hx => hx h0),
      List.find?_eq_none.mpr fun p hp => by simpa using hall p hp]

/-- Witness for C4 at concrete inputs: a supported inherit request is
honored. -/
theorem choose_composite_alpha_spec_witness : choose_composite_alpha 8 8 = some 8 :=
  (choose_composite_alpha_spec 8 8 (by decide)).1 (by decide)

/-- C5: `choose_extent` returns the request verbatim when the current width
is the sentinel `0xFFFFFFFF`; otherwise a zero requested dimension yields the
current extent; otherwise each dimension is independently clamped into
`[min, max]`, and under `min ≤ max` the result lies within `[min, max]` in
each dimension. -/
theorem choose_extent_spec (req minE maxE cur : Extent2D) :
    (cur.width = 0xFFFFFFFF → choose_extent req minE maxE cur = req) ∧
    (cur.width ≠ 0xFFFFFFFF → (req.width = 0 ∨ req.height = 0) →
      choose_extent req minE maxE cur = cur) ∧
    (cur.width ≠ 0xFFFFFFFF → 1 ≤ req.width → 1 ≤ req.height →
      choose_extent req minE maxE cur =
        { width := min (max req.width minE.width) maxE.width,
          height := min (max req.height minE.height) maxE.height } ∧
      (minE.width ≤ maxE.width →
        minE.width ≤ (choose_extent req minE maxE cur).width ∧
        (choose_extent req minE maxE cur).width ≤ maxE.width) ∧
      (minE.height ≤ maxE.height →
        minE.height ≤ (choose_extent req minE maxE cur).height ∧
        (choose_extent req minE maxE cur).height ≤ maxE.height)) := by
  refine ⟨fun h => by simp [choose_extent, h], fun h hz => ?_, fun h h1 h2 => ?_⟩
  · unfold choose_extent
    rw [if_neg h, if_pos]
    omega
  · have heq : choose_extent req minE maxE cur =
        { width := min (max req.width minE.width) maxE.width,
          height := min (max req.height minE.height) maxE.height } := by
      unfold choose_extent
      rw [if_neg h, if_neg (by omega)]
    refine ⟨heq, ?_, ?_⟩ <;> rw [heq] <;> dsimp <;> omega

/-- Witness for C5 at concrete inputs: a zero-width request with a defined
current extent resolves to the current extent. -/
theorem choose_extent_spec_witness :
    choose_extent ⟨0, 5⟩ ⟨1, 1⟩ ⟨4, 4⟩ ⟨2, 2⟩ = ⟨2, 2⟩ :=
  (choose_extent_spec ⟨0, 5⟩ ⟨1, 1⟩ ⟨4, 4⟩ ⟨2, 2⟩).2.1 (by decide) (by decide)

/-- Inversion of a successful negotiation pass: the three fallible axes each
resolved, and every stored field is the corresponding chooser's result. -/
theorem negotiate_some_inv {snap : Snapshot} {pm : Nat} {pmp : List Nat}
    {sfp : List SurfaceFormat} {ext : Extent2D} {ic tr : Nat} {usage : List Nat}
    {rc rcfr : Nat} {ce : Bool} {s : SwapchainState}
    (h : negotiate snap pm pmp sfp ext ic tr usage rc rcfr ce = some s) :
    ∃ sf flags ca,
      choose_surface_format default_surface_format_request snap.surface_formats sfp =
        some sf ∧
      choose_image_usage usage snap.caps.supportedUsageFlags
        (snap.format_features sf.format) = some flags ∧
      choose_composite_alpha VK_COMPOSITE_ALPHA_INHERIT_BIT_KHR
        snap.caps.supportedCompositeAlpha = some ca ∧
      s.properties.image_count =
        choose_image_count ic snap.caps.minImageCount snap.caps.maxImageCount ∧
      s.properties.extent =
        choose_extent ext snap.caps.minImageExtent snap.caps.maxImageExtent
          snap.caps.currentExtent ∧
      s.properties.array_layers = choose_image_array_layers 1 snap.caps.maxImageArrayLayers ∧
      s.properties.surface_format = sf ∧
      s.properties.image_usage = composite_image_flags flags ∧
      s.properties.pre_transform =
        choose_transform tr snap.caps.supportedTransforms snap.caps.currentTransform ∧
      s.properties.composite_alpha = ca ∧
      s.properties.present_mode = choose_present_mode pm snap.present_modes pmp ∧
      s.image_usage_flags = flags ∧
      s.present_mode_priority_list = pmp ∧
      s.surface_format_priority_list = sfp ∧
      s.requested_compression =
        (if ce then rc
         else if rc ≠ VK_IMAGE_COMPRESSION_DEFAULT_EXT then VK_IMAGE_COMPRESSION_DEFAULT_EXT
         else rc) ∧
      s.requested_compression_fixed_rate =
        (if ce then rcfr
         else if rc ≠ VK_IMAGE_COMPRESSION_DEFAULT_EXT then
           VK_IMAGE_COMPRESSION_FIXED_RATE_NONE_EXT
         else rcfr) ∧
      s.compression_warning =
        (if ce then false
         else if rc ≠ VK_IMAGE_COMPRESSION_DEFAULT_EXT then true
         else false) := by
  unfold negotiate at h
  obtain ⟨sf, hsf, h⟩ := Option.bind_eq_some.mp h
  obtain ⟨flags, hfl, h⟩ := Option.bind_eq_some.mp h
  obtain ⟨ca, hca, h⟩ := Option.bind_eq_some.mp h
  injection h with h
  subst h
  exact ⟨sf, flags, ca, hsf, hfl, hca, rfl, rfl, rfl, rfl, rfl, rfl, rfl, rfl, rfl, rfl,
    rfl, rfl, rfl, rfl⟩

/-- The success of a negotiation pass depends only on the capability snapshot,
the surface-format priority list and the requested usage flags, not on the
remaining request parameters. -/
theorem negotiate_isSome_congr (snap : Snapshot) (sfp : List SurfaceFormat)
    (usage : List Nat) (pm₁ pm₂ : Nat) (pmp₁ pmp₂ : List Nat) (ext₁ ext₂ : Extent2D)
    (ic₁ ic₂ tr₁ tr₂ rc₁ rc₂ rcfr₁ rcfr₂ : Nat) (ce₁ ce₂ : Bool) :
    (negotiate snap pm₁ pmp₁ sfp ext₁ ic₁ tr₁ usage rc₁ rcfr₁ ce₁).isSome =
      (negotiate snap pm₂ pmp₂ sfp ext₂ ic₂ tr₂ usage rc₂ rcfr₂ ce₂).isSome := by
  unfold negotiate
  cases choose_surface_format default_surface_format_request snap.surface_formats sfp with
  | none => rfl
  | some sf =>
    simp only [Option.some_bind]
    cases choose_image_usage usage snap.caps.supportedUsageFlags
        (snap.format_features sf.format) with
    | none => rfl
    | some flags =>
      simp only [Option.some_bind]
      cases choose_composite_alpha VK_COMPOSITE_ALPHA_INHERIT_BIT_KHR
          snap.caps.supportedCompositeAlpha with
      | none => rfl
      | some ca => rfl

/-- A well-behaved concrete capability snapshot used by the witnesses:
image counts in [2,4], extents in [1,1]x[10,10] with current extent (4,4),
identity transform supported, inherit alpha supported, color-attachment
usage supported. -/
def witSnap : Snapshot :=
  { caps :=
      { minImageCount := 2, maxImageCount := 4, minImageExtent := ⟨1, 1⟩,
        maxImageExtent := ⟨10, 10⟩, currentExtent := ⟨4, 4⟩, maxImageArrayLayers := 3,
        supportedTransforms := 1, currentTransform := 1, supportedCompositeAlpha := 8,
        supportedUsageFlags := 16 },
    surface_formats := [⟨0, 0⟩],
    present_modes := [2],
    format_features := fun _ => 0 }

/-- The resolved state of negotiating against `witSnap` with request
(FIFO, extent (5,5), 3 images, identity transform, color-attachment usage)
and an already-default compression preference. -/
def witState : SwapchainState :=
  { properties :=
      { image_count := 3, extent := ⟨5, 5⟩, array_layers := 1, surface_format := ⟨0, 0⟩,
        image_usage := 16, pre_transform := 1, composite_alpha := 8, present_mode := 2 },
    image_usage_flags := [16],
    present_mode_priority_list := [],
    surface_format_priority_list := [],
    requested_compression := 0,
    requested_compression_fixed_rate := 0,
    compression_warning := false }

/-- The resolved state of the same negotiation as `witState` but with a
non-default requested compression and the compression-control capability
absent: the stored preference is downgraded and the warning emitted. -/
def witStateDowngraded : SwapchainState :=
  { properties :=
      { image_count := 3, extent := ⟨5, 5⟩, array_layers := 1, surface_format := ⟨0, 0⟩,
        image_usage := 16, pre_transform := 1, composite_alpha := 8, present_mode := 2 },
    image_usage_flags := [16],
    present_mode_priority_list := [],
    surface_format_priority_list := [],
    requested_compression := 0,
    requested_compression_fixed_rate := 0,
    compression_warning := true }

/-- C7: in a construction without the compression-control swapchain
capability, a non-default requested compression does not make construction
fail; the stored preference afterwards is default/none and the warning is
logged; a default requested compression is stored unchanged with no
warning. -/
theorem compression_downgrade_spec (snap : Snapshot) (pm : Nat) (pmp : List Nat)
    (sfp : List SurfaceFormat) (ext : Extent2D) (ic tr : Nat) (usage : List Nat)
    (rc rcfr : Nat) :
    ((negotiate snap pm pmp sfp ext ic tr usage rc rcfr false).isSome =
      (negotiate snap pm pmp sfp ext ic tr usage VK_IMAGE_COMPRESSION_DEFAULT_EXT
        VK_IMAGE_COMPRESSION_FIXED_RATE_NONE_EXT false).isSome) ∧
    (rc ≠ VK_IMAGE_COMPRESSION_DEFAULT_EXT →
      ∀ s, negotiate snap pm pmp sfp ext ic tr usage rc rcfr false = some s →
        s.requested_compression = VK_IMAGE_COMPRESSION_DEFAULT_EXT ∧
        s.requested_compression_fixed_rate = VK_IMAGE_COMPRESSION_FIXED_RATE_NONE_EXT ∧
        s.compression_warning = true) ∧
    (rc = VK_IMAGE_COMPRESSION_DEFAULT_EXT →
      ∀ s, negotiate snap pm pmp sfp ext ic tr usage rc rcfr false = some s →
        s.requested_compression = rc ∧
        s.requested_compression_fixed_rate = rcfr ∧
        s.compression_warning = false) := by
  refine ⟨negotiate_isSome_congr snap sfp usage pm pm pmp pmp ext ext ic ic tr tr rc
      VK_IMAGE_COMPRESSION_DEFAULT_EXT rcfr VK_IMAGE_COMPRESSION_FIXED_RATE_NONE_EXT
      false false,
    fun hne s hs => ?_, fun heq s hs => ?_⟩
  · obtain ⟨sf, flags, ca, -, -, -, -, -, -, -, -, -, -, -, -, -, -, h1, h2, h3⟩ :=
      negotiate_some_inv hs
    rw [h1, h2, h3]
    simp [hne]
  · obtain ⟨sf, flags, ca, -, -, -, -, -, -, -, -, -, -, -, -, -, -, h1, h2, h3⟩ :=
      negotiate_some_inv hs
    rw [h1, h2, h3]
    simp [heq]

/-- Witness for C7 at concrete inputs: requesting compression 1 without the
capability stores the default/none preference and warns. -/
theorem compression_downgrade_spec_witness :
    witStateDowngraded.requested_compression = VK_IMAGE_COMPRESSION_DEFAULT_EXT ∧
    witStateDowngraded.requested_compression_fixed_rate =
      VK_IMAGE_COMPRESSION_FIXED_RATE_NONE_EXT ∧
    witStateDowngraded.compression_warning = true :=
  (compression_downgrade_spec witSnap 2 [] [] ⟨5, 5⟩ 3 1 [16] 1 0).2.1 (by decide)
    witStateDowngraded (by decide)

/-- C10: the first-time-creation constructor does not forward the
caller-supplied compression arguments to the master constructor: its result
is independent of them, and the stored compression preference is always the
header-declared default/none pair. -/
theorem first_time_create_ignores_compression (snap : Snapshot) (pm : Nat)
    (pmp : List Nat) (sfp : List SurfaceFormat) (ext : Extent2D) (ic tr : Nat)
    (usage : List Nat) (ce : Bool) (rc₁ rf₁ rc₂ rf₂ : Nat) :
    first_time_create snap pm pmp sfp ext ic tr usage rc₁ rf₁ ce =
      first_time_create snap pm pmp sfp ext ic tr usage rc₂ rf₂ ce ∧
    (∀ s, first_time_create snap pm pmp sfp ext ic tr usage rc₁ rf₁ ce = some s →
      s.requested_compression = VK_IMAGE_COMPRESSION_DEFAULT_EXT ∧
      s.requested_compression_fixed_rate = VK_IMAGE_COMPRESSION_FIXED_RATE_NONE_EXT) := by
  refine ⟨rfl, fun s hs => ?_⟩
  unfold first_time_create at hs
  obtain ⟨sf, flags, ca, -, -, -, -, -, -, -, -, -, -, -, -, -, -, h1, h2, -⟩ :=
    negotiate_some_inv hs
  rw [h1, h2]
  cases ce <;>
    simp [swapchain_default_compression, swapchain_default_compression_fixed_rate,
      VK_IMAGE_COMPRESSION_DEFAULT_EXT, VK_IMAGE_COMPRESSION_FIXED_RATE_NONE_EXT]

/-- Witness for C10 at concrete inputs: caller-requested compression (5, 7)
is dropped; the stored preference is the default/none pair. -/
theorem first_time_create_ignores_compression_witness :
    witState.requested_compression = VK_IMAGE_COMPRESSION_DEFAULT_EXT ∧
    witState.requested_compression_fixed_rate = VK_IMAGE_COMPRESSION_FIXED_RATE_NONE_EXT :=
  (first_time_create_ignores_compression witSnap 2 [] [] ⟨5, 5⟩ 3 1 [16] false 5 7 9 11).2
    witState (by decide)

/-- Re-clamping an already clamped image count is the identity. -/
theorem choose_image_count_idem (req a b : Nat) :
    choose_image_count (choose_image_count req a b) a b = choose_image_count req a b := by
  unfold choose_image_count
  by_cases hb : b ≠ 0
  · simp only [if_pos hb]
    omega
  · simp only [if_neg hb]
    omega

/-- Re-resolving an already resolved transform is the identity. -/
theorem choose_transform_idem (req supp cur : Nat) :
    choose_transform (choose_transform req supp cur) supp cur =
      choose_transform req supp cur := by
  unfold choose_transform
  by_cases h : req &&& supp ≠ 0
  · simp [h]
  · by_cases h2 : cur &&& supp ≠ 0 <;> simp [h, h2]

/-- Re-resolving an already resolved present mode is the identity. -/
theorem choose_present_mode_idem (req : Nat) (avail prio : List Nat) :
    choose_present_mode (choose_present_mode req avail prio) avail prio =
      choose_present_mode req avail prio := by
  unfold choose_present_mode
  by_cases h : req ∈ avail
  · simp [h]
  · rw [if_neg h]
    cases hfind : prio.find? (fun m => decide (m ∈ avail)) with
    | some m =>
      have hm : m ∈ avail := by simpa using List.find?_some hfind
      simp [hm]
    | none =>
      by_cases hf : VK_PRESENT_MODE_FIFO_KHR ∈ avail
      · simp [hf]
      · simp [hf, hfind]

/-- An extent that is positive and lies within the capability bounds (or any
extent at all when the current extent is the undefined sentinel) is a fixed
point of extent resolution. -/
theorem choose_extent_fixpoint {e minE maxE cur : Extent2D}
    (h : cur.width = 0xFFFFFFFF ∨
      (1 ≤ e.width ∧ 1 ≤ e.height ∧ minE.width ≤ e.width ∧ e.width ≤ maxE.width ∧
       minE.height ≤ e.height ∧ e.height ≤ maxE.height)) :
    choose_extent e minE maxE cur = e := by
  unfold choose_extent
  rcases h with h | h
  · rw [if_pos h]
  · by_cases hs : cur.width = 0xFFFFFFFF
    · rw [if_pos hs]
    · rw [if_neg hs, if_neg (by omega)]
      obtain ⟨w, hgt⟩ := e
      simp only [Extent2D.mk.injEq]
      refine ⟨?_, ?_⟩ <;> simp only at h <;> omega

/-- A successful usage resolution yields a non-empty set of qualifying
flags. -/
theorem choose_image_usage_result_qual {requested : List Nat} {supported features : Nat}
    {flags : List Nat} (h : choose_image_usage requested supported features = some flags) :
    flags ≠ [] ∧ ∀ f ∈ flags, usage_qual supported features f = true := by
  by_cases hfil : requested.filter (usage_qual supported features) = []
  · rw [choose_image_usage_eq_fallback hfil] at h
    cases hfind : image_usage_fallback_flags.find? (usage_qual supported features) with
    | none => rw [hfind] at h; exact absurd h (by simp)
    | some g =>
      rw [hfind] at h
      injection h with h
      subst h
      refine ⟨by simp, fun f hf => ?_⟩
      rw [List.mem_singleton] at hf
      subst hf
      exact List.find?_some hfind
  · rw [choose_image_usage_eq_filter hfil] at h
    injection h with h
    subst h
    exact ⟨hfil, fun f hf => (List.mem_filter.mp hf).2⟩

/-- Re-validating an already validated usage-flag set returns it unchanged. -/
theorem choose_image_usage_idem {requested : List Nat} {supported features : Nat}
    {flags : List Nat} (h : choose_image_usage requested supported features = some flags) :
    choose_image_usage flags supported features = some flags := by
  obtain ⟨hne, hall⟩ := choose_image_usage_result_qual h
  have hfil : flags.filter (usage_qual supported features) = flags :=
    List.filter_eq_self.mpr hall
  rw [choose_image_usage_eq_filter (by rw [hfil]; exact hne), hfil]

/-- C6 (amended): for a successfully constructed swapchain whose resolved
extent is a fixed point of extent resolution under the snapshot — i.e. the
snapshot reports the undefined-current-extent sentinel, or the resolved
extent is positive and lies within the snapshot's [min, max] extent bounds —
every single-axis recreation constructor, run against the same capability
snapshot, resolves every property other than its changed axis to the
predecessor's value.  (Without the fixed-point hypothesis the claim fails:
see the counterexample.) -/
theorem recreate_preserves_properties (snap : Snapshot) (ce : Bool) (pm : Nat)
    (pmp : List Nat) (sfp : List SurfaceFormat) (ext : Extent2D) (ic tr : Nat)
    (usage : List Nat) (rc rcfr : Nat) (old : SwapchainState)
    (hold : negotiate snap pm pmp sfp ext ic tr usage rc rcfr ce = some old)
    (hfix : snap.caps.currentExtent.width = 0xFFFFFFFF ∨
      (1 ≤ old.properties.extent.width ∧ 1 ≤ old.properties.extent.height ∧
       snap.caps.minImageExtent.width ≤ old.properties.extent.width ∧
       old.properties.extent.width ≤ snap.caps.maxImageExtent.width ∧
       snap.caps.minImageExtent.height ≤ old.properties.extent.height ∧
       old.properties.extent.height ≤ snap.caps.maxImageExtent.height)) :
    (∀ e s, recreate_with_extent old snap ce e = some s →
      s.properties.image_count = old.properties.image_count ∧
      s.properties.array_layers = old.properties.array_layers ∧
      s.properties.surface_format = old.properties.surface_format ∧
      s.properties.image_usage = old.properties.image_usage ∧
      s.properties.pre_transform = old.properties.pre_transform ∧
      s.properties.composite_alpha = old.properties.composite_alpha ∧
      s.properties.present_mode = old.properties.present_mode) ∧
    (∀ n s, recreate_with_image_count old snap ce n = some s →
      s.properties.extent = old.properties.extent ∧
      s.properties.array_layers = old.properties.array_layers ∧
      s.properties.surface_format = old.properties.surface_format ∧
      s.properties.image_usage = old.properties.image_usage ∧
      s.properties.pre_transform = old.properties.pre_transform ∧
      s.properties.composite_alpha = old.properties.composite_alpha ∧
      s.properties.present_mode = old.properties.present_mode) ∧
    (∀ u s, recreate_with_image_usage old snap ce u = some s →
      s.properties.image_count = old.properties.image_count ∧
      s.properties.extent = old.properties.extent ∧
      s.properties.array_layers = old.properties.array_layers ∧
      s.properties.surface_format = old.properties.surface_format ∧
      s.properties.pre_transform = old.properties.pre_transform ∧
      s.properties.composite_alpha = old.properties.composite_alpha ∧
      s.properties.present_mode = old.properties.present_mode) ∧
    (∀ e t s, recreate_with_extent_transform old snap ce e t = some s →
      s.properties.image_count = old.properties.image_count ∧
      s.properties.array_layers = old.properties.array_layers ∧
      s.properties.surface_format = old.properties.surface_format ∧
      s.properties.image_usage = old.properties.image_usage ∧
      s.properties.composite_alpha = old.properties.composite_alpha ∧
      s.properties.present_mode = old.properties.present_mode) ∧
    (∀ c f s, recreate_with_compression old snap ce c f = some s →
      s.properties.image_count = old.properties.image_count ∧
      s.properties.extent = old.properties.extent ∧
      s.properties.array_layers = old.properties.array_layers ∧
      s.properties.surface_format = old.properties.surface_format ∧
      s.properties.image_usage = old.properties.image_usage ∧
      s.properties.pre_transform = old.properties.pre_transform ∧
      s.properties.composite_alpha = old.properties.composite_alpha ∧
      s.properties.present_mode = old.properties.present_mode) := by
  obtain ⟨sf, flags, ca, hsf, hfl, hca, hico, hexto, halo, hsfo, hiuo, hpto, hcao, hpmo,
    hflagso, hpmpo, hsfpo, -, -, -⟩ := negotiate_some_inv hold
  have hext_fix : choose_extent old.properties.extent snap.caps.minImageExtent
      snap.caps.maxImageExtent snap.caps.currentExtent = old.properties.extent :=
    choose_extent_fixpoint hfix
  have husage : choose_image_usage old.image_usage_flags snap.caps.supportedUsageFlags
      (snap.format_features sf.format) = some flags := by
    rw [hflagso]
    exact choose_image_usage_idem hfl
  have key : ∀ (e2 : Extent2D) (ic2 tr2 : Nat) (usage2 : List Nat) (rc2 rcfr2 : Nat)
      (s : SwapchainState),
      negotiate snap old.properties.present_mode old.present_mode_priority_list
        old.surface_format_priority_list e2 ic2 tr2 usage2 rc2 rcfr2 ce = some s →
      s.properties.image_count =
        choose_image_count ic2 snap.caps.minImageCount snap.caps.maxImageCount ∧
      s.properties.extent =
        choose_extent e2 snap.caps.minImageExtent snap.caps.maxImageExtent
          snap.caps.currentExtent ∧
      s.properties.array_layers = old.properties.array_layers ∧
      s.properties.surface_format = old.properties.surface_format ∧
      (usage2 = old.image_usage_flags →
        s.properties.image_usage = old.properties.image_usage) ∧
      s.properties.pre_transform =
        choose_transform tr2 snap.caps.supportedTransforms snap.caps.currentTransform ∧
      s.properties.composite_alpha = old.properties.composite_alpha ∧
      s.properties.present_mode = old.properties.present_mode := by
    intro e2 ic2 tr2 usage2 rc2 rcfr2 s hs
    obtain ⟨sf2, flags2, ca2, hq1, hq2, hq3, g1, g2, g3, g4, g5, g6, g7, g8,
      -, -, -, -, -, -⟩ := negotiate_some_inv hs
    have hsf2 : sf2 = sf := by
      rw [hsfpo, hsf] at hq1
      exact (Option.some_inj.mp hq1).symm
    have hca2 : ca2 = ca := by
      rw [hca] at hq3
      exact (Option.some_inj.mp hq3).symm
    refine ⟨g1, g2, ?_, ?_, ?_, g6, ?_, ?_⟩
    · rw [g3]
      exact halo.symm
    · rw [g4, hsf2]
      exact hsfo.symm
    · intro hu
      have hfl2 : flags2 = flags := by
        rw [hu, hsf2, husage] at hq2
        exact (Option.some_inj.mp hq2).symm
      rw [g5, hfl2]
      exact hiuo.symm
    · rw [g7, hca2]
      exact hcao.symm
    · rw [g8, hpmpo, hpmo, choose_present_mode_idem]
  refine ⟨fun e s hs => ?_, fun n s hs => ?_, fun u s hs => ?_, fun e t s hs => ?_,
    fun c f s hs => ?_⟩
  · obtain ⟨k1, -, k3, k4, k5, k6, k7, k8⟩ :=
      key e old.properties.image_count old.properties.pre_transform old.image_usage_flags
        old.requested_compression old.requested_compression_fixed_rate s hs
    refine ⟨?_, k3, k4, k5 rfl, ?_, k7, k8⟩
    · rw [k1, hico, choose_image_count_idem]
    · rw [k6, hpto, choose_transform_idem]
  · obtain ⟨-, k2, k3, k4, k5, k6, k7, k8⟩ :=
      key old.properties.extent n old.properties.pre_transform old.image_usage_flags
        old.requested_compression old.requested_compression_fixed_rate s hs
    refine ⟨k2.trans hext_fix, k3, k4, k5 rfl, ?_, k7, k8⟩
    rw [k6, hpto, choose_transform_idem]
  · obtain ⟨k1, k2, k3, k4, -, k6, k7, k8⟩ :=
      key old.properties.extent old.properties.image_count old.properties.pre_transform u
        old.requested_compression old.requested_compression_fixed_rate s hs
    refine ⟨?_, k2.trans hext_fix, k3, k4, ?_, k7, k8⟩
    · rw [k1, hico, choose_image_count_idem]
    · rw [k6, hpto, choose_transform_idem]
  · obtain ⟨k1, -, k3, k4, k5, -, k7, k8⟩ :=
      key e old.properties.image_count t old.image_usage_flags
        old.requested_compression old.requested_compression_fixed_rate s hs
    refine ⟨?_, k3, k4, k5 rfl, k7, k8⟩
    rw [k1, hico, choose_image_count_idem]
  · obtain ⟨k1, k2, k3, k4, k5, k6, k7, k8⟩ :=
      key old.properties.extent old.properties.image_count old.properties.pre_transform
        old.image_usage_flags c f s hs
    refine ⟨?_, k2.trans hext_fix, k3, k4, k5 rfl, ?_, k7, k8⟩
    · rw [k1, hico, choose_image_count_idem]
    · rw [k6, hpto, choose_transform_idem]

/-- A capability snapshot with a defined current extent (3,3) but a
degenerate max image extent (0,5): clamping a positive request produces a
zero-width resolved extent, which the next negotiation pass maps to the
current extent instead. -/
def cexSnap : Snapshot :=
  { caps :=
      { minImageCount := 1, maxImageCount := 0, minImageExtent := ⟨0, 0⟩,
        maxImageExtent := ⟨0, 5⟩, currentExtent := ⟨3, 3⟩, maxImageArrayLayers := 1,
        supportedTransforms := 1, currentTransform := 1, supportedCompositeAlpha := 8,
        supportedUsageFlags := 16 },
    surface_formats := [⟨0, 0⟩],
    present_modes := [2],
    format_features := fun _ => 0 }

/-- Counterexample to C6 as stated: against `cexSnap`, the original request
with extent (5,5) negotiates successfully to resolved extent (0,5), but
recreating via the image-count constructor — which does not change the
extent axis — re-resolves the extent to (3,3) ≠ (0,5). -/
theorem recreate_preserves_properties_cex :
    (negotiate cexSnap 2 [] [] ⟨5, 5⟩ 1 1 [16] 0 0 false).map
        (fun s => s.properties.extent) = some ⟨0, 5⟩ ∧
    ((negotiate cexSnap 2 [] [] ⟨5, 5⟩ 1 1 [16] 0 0 false).bind
        (fun old => recreate_with_image_count old cexSnap false 2)).map
        (fun s => s.properties.extent) = some ⟨3, 3⟩ ∧
    (⟨0, 5⟩ : Extent2D) ≠ ⟨3, 3⟩ :=
  ⟨rfl, rfl, by decide⟩

/-- The resolved state of recreating `witState` with image count 4: only the
image count changes. -/
def witStateCount4 : SwapchainState :=
  { witState with properties := { witState.properties with image_count := 4 } }

/-- Witness for the amended C6 at concrete inputs: recreating against
`witSnap` with a new image count preserves the extent and the present
mode. -/
theorem recreate_preserves_properties_witness :
    witStateCount4.properties.extent = witState.properties.extent ∧
    witStateCount4.properties.present_mode = witState.properties.present_mode := by
  have h :=
    (recreate_preserves_properties witSnap false 2 [] [] ⟨5, 5⟩ 3 1 [16] 0 0 witState
        (by decide) (by decide)).2.1 4 witStateCount4 (by decide)
  exact ⟨h.1, h.2.2.2.2.2.2⟩

/-- Index `i` is a hit for `get_memory_type`: its bit is set in the mask and
the memory type at `i` has all the requested property flags. -/
def QualMem (memory_types : List Nat) (bits properties i : Nat) : Prop :=
  ∃ h : i < memory_types.length,
    bits.testBit i = true ∧ memory_types.get ⟨i, h⟩ &&& properties = properties

/-- The guard of the `get_memory_type` loop at index 0 restated through
`testBit`. -/
theorem mem_guard_iff (bits t properties : Nat) :
    (((bits &&& 1 == 1) && (t &&& properties == properties)) = true) ↔
      (bits.testBit 0 = true ∧ t &&& properties = properties) := by
  simp [Nat.and_one_is_mod, Nat.testBit_zero]

/-- A hit at index 0 of a non-empty memory-type list. -/
theorem qualmem_zero (t : Nat) (rest : List Nat) (bits properties : Nat) :
    QualMem (t :: rest) bits properties 0 ↔
      (bits.testBit 0 = true ∧ t &&& properties = properties) := by
  constructor
  · rintro ⟨h, hb, hp⟩
    exact ⟨hb, hp⟩
  · rintro ⟨hb, hp⟩
    exact ⟨by simp, hb, hp⟩

/-- A hit at a successor index steps into the tail with the mask shifted. -/
theorem qualmem_succ (t : Nat) (rest : List Nat) (bits properties m : Nat) :
    QualMem (t :: rest) bits properties (m + 1) ↔
      QualMem rest (bits >>> 1) properties m := by
  constructor
  · rintro ⟨h, hb, hp⟩
    refine ⟨by simpa using h, ?_, hp⟩
    rw [Nat.testBit_shiftRight]
    simpa [Nat.add_comm] using hb
  · rintro ⟨h, hb, hp⟩
    refine ⟨by simpa using h, ?_, hp⟩
    rw [Nat.testBit_shiftRight] at hb
    simpa [Nat.add_comm] using hb

/-- The loop of `get_memory_type` returns the least hit index, and fails
exactly when there is none. -/
theorem memory_type_find_spec (memory_types : List Nat) (bits properties : Nat) :
    (∀ j, memory_type_find memory_types bits properties = some j →
      QualMem memory_types bits properties j ∧
        ∀ m, QualMem memory_types bits properties m → j ≤ m) ∧
    (memory_type_find memory_types bits properties = none →
      ∀ i, ¬ QualMem memory_types bits properties i) := by
  induction memory_types generalizing bits with
  | nil =>
    refine ⟨fun j hj => ?_, fun _ i hq => ?_⟩
    · simp [memory_type_find] at hj
    · obtain ⟨h, -⟩ := hq
      simp at h
  | cons t rest ih =>
    by_cases hguard : ((bits &&& 1 == 1) && (t &&& properties == properties)) = true
    · refine ⟨fun j hj => ?_, fun hn => ?_⟩
      · rw [memory_type_find, if_pos hguard] at hj
        injection hj with hj
        subst hj
        refine ⟨(qualmem_zero t rest bits properties).mpr ((mem_guard_iff _ _ _).mp hguard),
          fun m _ => Nat.zero_le m⟩
      · rw [memory_type_find, if_pos hguard] at hn
        exact absurd hn (by simp)
    · refine ⟨fun j hj => ?_, fun hn i hq => ?_⟩
      · rw [memory_type_find, if_neg hguard] at hj
        obtain ⟨j₀, hj₀, rfl⟩ := Option.map_eq_some'.mp hj
        obtain ⟨hqual, hmin⟩ := (ih (bits >>> 1)).1 j₀ hj₀
        refine ⟨(qualmem_succ t rest bits properties j₀).mpr hqual, fun m hm => ?_⟩
        cases m with
        | zero =>
          exact absurd ((mem_guard_iff bits t properties).mpr
            ((qualmem_zero t rest bits properties).mp hm)) hguard
        | succ m₀ =>
          have := hmin m₀ ((qualmem_succ t rest bits properties m₀).mp hm)
          omega
      · rw [memory_type_find, if_neg hguard] at hn
        rw [Option.map_eq_none'] at hn
        cases i with
        | zero =>
          exact hguard ((mem_guard_iff bits t properties).mpr
            ((qualmem_zero t rest bits properties).mp hq))
        | succ m =>
          exact (ih (bits >>> 1)).2 hn m ((qualmem_succ t rest bits properties m).mp hq)

/-- C8: when some memory type whose index bit is set in the mask has all the
requested property flags, `get_memory_type` returns the smallest such index
and sets the out-flag to true when one was passed; when no such type exists
it returns the sentinel `~0` with the out-flag false if an out-flag was
passed, and throws if none was. -/
theorem get_memory_type_spec (memory_types : List Nat) (bits properties : Nat)
    (has_out_flag : Bool) :
    ((∃ i, QualMem memory_types bits properties i) →
      ∃ j, QualMem memory_types bits properties j ∧
        (∀ m, QualMem memory_types bits properties m → j ≤ m) ∧
        get_memory_type memory_types bits properties has_out_flag =
          Except.ok (j, if has_out_flag then some true else none)) ∧
    ((∀ i, ¬ QualMem memory_types bits properties i) →
      get_memory_type memory_types bits properties has_out_flag =
        if has_out_flag then Except.ok (4294967295, some false) else Except.error ()) := by
  constructor
  · rintro ⟨i, hi⟩
    cases hfind : memory_type_find memory_types bits properties with
    | none =>
      exact absurd hi ((memory_type_find_spec memory_types bits properties).2 hfind i)
    | some j =>
      obtain ⟨hq, hmin⟩ := (memory_type_find_spec memory_types bits properties).1 j hfind
      exact ⟨j, hq, hmin, by rw [get_memory_type, hfind]⟩
  · intro hall
    cases hfind : memory_type_find memory_types bits properties with
    | some j =>
      exact absurd ((memory_type_find_spec memory_types bits properties).1 j hfind).1
        (hall j)
    | none =>
      rw [get_memory_type, hfind]

/-- Witness for C8 at concrete inputs: mask `0b10` over types [5, 7] with
requested properties 7 finds index 1 (index 0 is masked out) and reports
success through the out-flag. -/
theorem get_memory_type_spec_witness :
    get_memory_type [5, 7] 2 7 true = Except.ok (1, some true) := by
  have hqual1 : QualMem [5, 7] 2 7 1 := by
    unfold QualMem
    exact ⟨by decide, by decide, by decide⟩
  obtain ⟨j, hq, hmin, heq⟩ := (get_memory_type_spec [5, 7] 2 7 true).1 ⟨1, hqual1⟩
  have hj0 : j ≠ 0 := by
    intro h0
    subst h0
    obtain ⟨-, hb, -⟩ := hq
    exact absurd hb (by decide)
  have hj : j = 1 := by
    have := hmin 1 hqual1
    omega
  subst hj
  simpa using heq

/-- C9: `query_supported_fixed_rate_compression` never fails on a missing
prerequisite: with the device-level extension absent, or present but the
instance-level extension absent, it returns the empty list and a warning
naming the missing prerequisite; only with both enabled does it return the
queried list, one pair per reported surface format, and no warning. -/
theorem query_supported_fixed_rate_compression_spec (d i : Bool)
    (queried : List (SurfaceFormat × Nat)) :
    (d = false → query_supported_fixed_rate_compression d i queried =
      ([], some CompressionQueryWarning.missing_device_compression_control_swapchain)) ∧
    (d = true → i = false → query_supported_fixed_rate_compression d i queried =
      ([], some CompressionQueryWarning.missing_instance_surface_capabilities2)) ∧
    (d = true → i = true →
      query_supported_fixed_rate_compression d i queried = (queried, none) ∧
      (query_supported_fixed_rate_compression d i queried).1.length = queried.length) := by
  refine ⟨fun hd => ?_, fun hd hi => ?_, fun hd hi => ?_⟩ <;> subst hd <;>
    first
      | rfl
      | (subst hi; first | rfl | exact ⟨rfl, rfl⟩)

/-- Witness for C9 at concrete inputs: with the device-level extension absent
the result is empty with the device-extension warning; with both extensions
the queried pair list is returned unchanged. -/
theorem query_supported_fixed_rate_compression_spec_witness :
    query_supported_fixed_rate_compression false true [(⟨1, 2⟩, 3)] =
      ([], some CompressionQueryWarning.missing_device_compression_control_swapchain) ∧
    query_supported_fixed_rate_compression true true [(⟨1, 2⟩, 3)] = ([(⟨1, 2⟩, 3)], none) :=
  ⟨(query_supported_fixed_rate_compression_spec false true [(⟨1, 2⟩, 3)]).1 rfl,
   ((query_supported_fixed_rate_compression_spec true true [(⟨1, 2⟩, 3)]).2.2 rfl rfl).1⟩

end Vkb
